import Mathlib

/-!
Verification development for the snapshot-generation pipeline of
mcp-snapshot-server: a shallow embedding of the Section Generator
(confidence scoring, missing-field detection), the Validator
(LLM-response parsing, heuristic checks, result merging) and the
Orchestrator (stage sequencing, fan-out error isolation, output
assembly), together with theorems checking the specification's claims
against the embedded code.

Modelling conventions:
- Python strings are `List Char`; `.lower()` is an ASCII case fold,
  matching the ASCII content the pipeline manipulates.
- Python float scores are modelled as exact rationals; every constant
  in the code (0.05, 0.1, 0.15, 0.2) is decimal, so the structure of
  every comparison and clamp is preserved.
- `async` calls and exceptions become `Except` values: each external
  LLM/parse/analyze call is an explicit outcome parameter, an
  exception being `.error msg` with `msg` the Python `str(e)`.
-/

set_option maxRecDepth 8000

namespace McpSnapshot

/-- Characters of a string literal, the representation used for all
Python strings in this development. -/
def str (s : String) : List Char := s.data

/-- Python whitespace for `str.strip` (ASCII): space, tab, newline,
vertical tab, form feed, carriage return. -/
def isPySpace (c : Char) : Bool :=
  c == ' ' || c == '\t' || c == '\n' || c == '\x0b' || c == '\x0c' || c == '\r'

/-- ASCII case fold, modelling Python `str.lower()` on the content the
pipeline handles. -/
def pyLower (s : List Char) : List Char := s.map Char.toLower

/-- Whether `pat` is a prefix of `s` (Python `str.startswith`). -/
def isPre : List Char → List Char → Bool
  | [], _ => true
  | _ :: _, [] => false
  | a :: as, b :: bs => a == b && isPre as bs

/-- Whether `pat` occurs as a contiguous substring of `s`
(Python `pat in s`). -/
def hasSub (pat : List Char) : List Char → Bool
  | [] => isPre pat []
  | c :: t => isPre pat (c :: t) || hasSub pat t

/-- Index of the first occurrence of `pat` in `s`
(Python `s.index(pat)`, `none` when absent). -/
def subIdx (pat : List Char) : List Char → Option Nat
  | [] => if isPre pat [] then some 0 else none
  | c :: t => if isPre pat (c :: t) then some 0 else (subIdx pat t).map (· + 1)

/-- Number of positions at which `pat` matches in `s`.  For a pattern
that cannot overlap itself (such as the inferred-value marker
guarded by its unique opening bracket) this equals Python
`s.count(pat)`. -/
def occCount (pat : List Char) : List Char → Nat
  | [] => 0
  | c :: t => (if isPre pat (c :: t) then 1 else 0) + occCount pat t

/-- Suffix of `s` after the first occurrence of `pat` (empty when `pat`
is absent). -/
def afterFirst (pat : List Char) : List Char → List Char
  | [] => []
  | c :: t => if isPre pat (c :: t) then (c :: t).drop pat.length else afterFirst pat t

/-- Prefix of `s` before the first occurrence of `pat` (all of `s` when
`pat` is absent); this is Python `s.split(pat)[0]`. -/
def upTo (pat : List Char) : List Char → List Char
  | [] => []
  | c :: t => if isPre pat (c :: t) then [] else c :: upTo pat t

/-- Python `s.split(pat)[1]` whenever `pat` occurs in `s`: the text
between the first occurrence of `pat` and the next one (or the end of
`s`). -/
def chunkAfterFirst (pat s : List Char) : List Char := upTo pat (afterFirst pat s)

/-- Splits `s` at every occurrence of the character `c`
(Python `s.split(c)` for a one-character separator). -/
def splitChar (c : Char) : List Char → List (List Char)
  | [] => [[]]
  | a :: t =>
    if a == c then [] :: splitChar c t
    else
      match splitChar c t with
      | [] => [[a]]
      | h :: r => (a :: h) :: r

/-- Python `s.strip()`: drops leading and trailing whitespace. -/
def pyStrip (s : List Char) : List Char :=
  ((s.dropWhile isPySpace).reverse.dropWhile isPySpace).reverse

/-! ## Section Generator (agents/section_generator.py) -/

/-- The six placeholder phrases penalised by `_calculate_confidence`. -/
def placeholders : List (List Char) :=
  [str "not mentioned", str "not specified", str "not available",
   str "not stated", str "unclear from transcript", str "no information provided"]

/-- The inferred-value marker counted by `_calculate_confidence`. -/
def inferredTag : List Char := str "[INFERRED]"

/-- Customer Information branch of `_calculate_confidence`
(section_generator.py lines 200-208), acting on the lowercased
content: a +0.1 bonus when the "company name:" label is present and
`content_lower.split("company name:")[1][:50]` does not contain
"not mentioned"; a -0.2 penalty when the label is absent; and an
independent -0.1 penalty when "industry:" is absent. -/
def ciAdjustment (content_lower : List Char) : ℚ :=
  (if hasSub (str "company name:") content_lower then
    (if !hasSub (str "not mentioned")
        ((chunkAfterFirst (str "company name:") content_lower).take 50) then
      (1 : ℚ)/10
    else 0)
  else -(2/10))
  + (if !hasSub (str "industry:") content_lower then -((1 : ℚ)/10) else 0)

/-- Regex `\d+%|\d+\s*hours?|\$\d+` from the Results and Achievements
branch: a digit directly before a percent sign, a digit followed by
optional whitespace then "hour", or a dollar sign directly before a
digit.  A match of the regex exists exactly when one of these local
patterns occurs (taking the last digit of the `\d+` group). -/
def hasMetricPattern : List Char → Bool
  | [] => false
  | c :: t =>
    (c.isDigit && (isPre (str "%") t || isPre (str "hour") (t.dropWhile isPySpace)))
    || (c == '$' && (match t with | [] => false | d :: _ => d.isDigit))
    || hasMetricPattern t

/-- Regex `\$\d+|\d+%\s*roi|savings` from the Financial Impact branch,
applied to the lowercased content. -/
def hasFinancialPattern (s : List Char) : Bool :=
  hasSub (str "savings") s || financialScan s
where
  financialScan : List Char → Bool
    | [] => false
    | c :: t =>
      (c == '$' && (match t with | [] => false | d :: _ => d.isDigit))
      || (c.isDigit && (match t with
          | p :: u => p == '%' && isPre (str "roi") (u.dropWhile isPySpace)
          | [] => false))
      || financialScan t

/-- Section-specific branch of `_calculate_confidence`
(section_generator.py lines 199-231); exactly one branch fires,
selected by the section name.  The numeric-pattern checks for Results
and Achievements run on the original content, the financial check on
the lowercased content, as in the source. -/
def sectionAdjustment (section_name content_lower content : List Char) : ℚ :=
  if section_name == str "Customer Information" then ciAdjustment content_lower
  else if section_name == str "Background" then
    (if hasSub (str "problem") content_lower || hasSub (str "challenge") content_lower
     then (5 : ℚ)/100 else 0)
  else if section_name == str "Solution" then
    (if hasSub (str "product") content_lower || hasSub (str "service") content_lower
     then (5 : ℚ)/100 else 0)
  else if section_name == str "Results and Achievements" then
    (if hasMetricPattern content then (1 : ℚ)/10 else 0)
  else if section_name == str "Financial Impact" then
    (if hasFinancialPattern content_lower then (15 : ℚ)/100 else -(2/10))
  else 0

/-- `SectionGeneratorAgent._calculate_confidence`
(section_generator.py lines 167-240): start from 1.0; subtract 0.1 for
each placeholder phrase present in the lowercased content; subtract
0.05 per occurrence of the inferred marker; apply the section-specific
adjustment; apply the length penalty; clamp to [0, 1]. -/
def calculate_confidence (section_name content : List Char) : ℚ :=
  let content_lower := pyLower content
  let score : ℚ := 1
  let score := placeholders.foldl
    (fun sc p => if hasSub p content_lower then sc - 1/10 else sc) score
  let inferred_count := occCount inferredTag content
  let score := if 0 < inferred_count then score - (5/100) * inferred_count else score
  let score := score + sectionAdjustment section_name content_lower content
  let score :=
    if content.length < 100 then score - 2/10
    else if content.length < 200 then score - 1/10
    else score
  max 0 (min 1 score)

/-- The five placeholder phrases checked by `_is_field_missing`
(section_generator.py lines 304-310); note the bare "unclear" and the
absence of "no information provided", unlike the confidence list. -/
def fieldPlaceholders : List (List Char) :=
  [str "not mentioned", str "not specified", str "not available",
   str "not stated", str "unclear"]

/-- `SectionGeneratorAgent._is_field_missing`
(section_generator.py lines 287-312): a field is missing when its
label is absent, or when `content[field_index : field_index + 100]`
(the 100-character slice starting at the label itself) contains one of
the five field placeholders.  The argument is the already-lowercased
content, as at the call sites. -/
def is_field_missing (content field_label : List Char) : Bool :=
  if !hasSub field_label content then true
  else
    let field_index := (subIdx field_label content).getD 0
    let following_text := pyLower ((content.drop field_index).take 100)
    fieldPlaceholders.any fun p => hasSub p following_text

/-- `SectionGeneratorAgent._identify_missing_fields`
(section_generator.py lines 242-285), restricted by section name. -/
def identify_missing_fields (section_name content : List Char) : List (List Char) :=
  let cl := pyLower content
  if section_name == str "Customer Information" then
    (if is_field_missing cl (str "company name") then [str "company_name"] else [])
    ++ (if is_field_missing cl (str "industry") then [str "industry"] else [])
    ++ (if is_field_missing cl (str "location") then [str "location"] else [])
    ++ (if is_field_missing cl (str "primary contact") then [str "primary_contact"] else [])
  else if section_name == str "Engagement Details" then
    (if is_field_missing cl (str "start date") then [str "start_date"] else [])
    ++ (if is_field_missing cl (str "completion date") then [str "completion_date"] else [])
  else if section_name == str "Financial Impact" then
    (if !(hasDollarDigit cl || hasSub (str "cost savings") cl)
     then [str "cost_savings"] else [])
    ++ (if !hasSub (str "roi") cl && !hasSub (str "return on investment") cl
        then [str "roi_percentage"] else [])
  else if section_name == str "Adoption and Usage" then
    (if !hasSub (str "users") cl && !hasSub (str "adoption") cl
     then [str "user_count", str "adoption_rate"] else [])
  else []
where
  /-- Regex `\$\d+` used in the Financial Impact missing-field check. -/
  hasDollarDigit : List Char → Bool
    | [] => false
    | c :: t =>
      (c == '$' && (match t with | [] => false | d :: _ => d.isDigit))
      || hasDollarDigit t

/-! ## Data model (models/sections.py, models/validation.py, utils/errors.py) -/

/-- Error codes of `utils/errors.py` used by the orchestration path. -/
inductive ErrorCode where
  | INVALID_INPUT
  | PARSE_ERROR
  | INTERNAL_ERROR
  deriving DecidableEq, Repr

/-- `MCPServerError` with the `details` keys the orchestrator writes
("filename" and "error"). -/
structure MCPServerError where
  message : List Char
  error_code : ErrorCode
  details_filename : Option (List Char)
  details_error : Option (List Char)
  deriving DecidableEq, Repr

/-- Generation metadata of a section (models/sections.py,
`SectionMetadata`), restricted to the fields the orchestration logic
reads or writes. -/
structure SectionMetadata where
  model : Option (List Char) := none
  finish_reason : Option (List Char) := none
  error : Option (List Char) := none
  deriving DecidableEq, Repr

/-- `SectionResult` (models/sections.py). -/
structure SectionResult where
  section_name : List Char
  content : List Char
  confidence : ℚ
  missing_fields : List (List Char)
  metadata : SectionMetadata
  deriving DecidableEq, Repr

/-- `SectionResult.error_placeholder` (models/sections.py lines
40-57). -/
def SectionResult.error_placeholder (section_name error : List Char) : SectionResult :=
  { section_name := section_name
    content := str "[Section generation failed: " ++ error ++ str "]"
    confidence := 0
    missing_fields := []
    metadata := { error := some error } }

/-- `SectionContent` (models/sections.py): a section as packaged in
the final snapshot. -/
structure SectionContent where
  content : List Char
  confidence : ℚ
  missing_fields : List (List Char)
  deriving DecidableEq, Repr

/-- `ValidationResult` (models/validation.py). -/
structure ValidationResult where
  factual_consistency : Bool := true
  completeness : Bool := true
  quality : Bool := true
  issues : List (List Char) := []
  improvements : List (List Char) := []
  requires_improvements : Bool := false
  missing_critical_info : List (List Char) := []
  deriving DecidableEq, Repr

/-- Analysis results (models/analysis.py), restricted to the fields
the orchestrator forwards into the snapshot metadata. -/
structure AnalysisResult where
  entities : List (List Char × List (List Char)) := []
  topics : List (List Char) := []
  deriving DecidableEq, Repr

/-- `SnapshotMetadata` (models/sections.py). -/
structure SnapshotMetadata where
  avg_confidence : ℚ
  total_sections : Nat
  entities_extracted : List (List Char × List (List Char))
  topics_identified : List (List Char)
  deriving DecidableEq, Repr

/-- `SnapshotOutput` (models/sections.py); the section mapping is an
association list in insertion order, matching the Python dict. -/
structure SnapshotOutput where
  sections : List (List Char × SectionContent)
  metadata : SnapshotMetadata
  validation : ValidationResult
  missing_fields : List (List Char)
  deriving DecidableEq, Repr

/-! ## Validator (agents/validator.py) -/

/-- The dictionary `_parse_validation_response` builds from the raw
LLM review text. -/
structure ParsedLLM where
  factual_consistency : Bool
  completeness : Bool
  quality : Bool
  issues : List (List Char)
  improvements : List (List Char)
  requires_improvements : Bool
  missing_critical_info : List (List Char)
  deriving DecidableEq, Repr

/-- Block extraction shared by `_extract_issues`,
`_extract_improvements` and `_extract_quality_issues`
(validator.py lines 190-218): when the label occurs,
`response.split(label)[1].split("\n\n")[0]` is cut into lines, each is
stripped, and empty lines are discarded. -/
def extract_block (label response : List Char) : List (List Char) :=
  if hasSub label response then
    ((splitChar '\n' (upTo (str "\n\n") (chunkAfterFirst label response))).map
      pyStrip).filter (fun l => !l.isEmpty)
  else []

/-- `ValidationAgent._extract_issues`. -/
def extract_issues (response : List Char) : List (List Char) :=
  extract_block (str "FACTUAL CONSISTENCY:") response

/-- `ValidationAgent._extract_improvements`. -/
def extract_improvements (response : List Char) : List (List Char) :=
  extract_block (str "IMPROVEMENTS:") response

/-- `ValidationAgent._extract_quality_issues`. -/
def extract_quality_issues (response : List Char) : List (List Char) :=
  extract_block (str "QUALITY ISSUES:") response

/-- Negation test of `_parse_validation_response` (validator.py lines
158-164), on the lowercased line: lines starting with "no ", or
containing "no problems" or "none", are skipped. -/
def negationLine (issue_lower : List Char) : Bool :=
  isPre (str "no ") issue_lower
  || hasSub (str "no problems") issue_lower
  || hasSub (str "none") issue_lower

/-- Problem keywords of `_parse_validation_response` (validator.py
lines 166-176). -/
def problemKeywords : List (List Char) :=
  [str "problem", str "concern", str "poor", str "unclear",
   str "unprofessional", str "issue"]

/-- The `has_quality_issues` loop of `_parse_validation_response`:
some extracted quality line is not a negation and contains a problem
keyword. -/
def has_quality_issues (response : List Char) : Bool :=
  (extract_quality_issues response).any fun issue =>
    let issue_lower := pyLower issue
    !negationLine issue_lower && problemKeywords.any fun k => hasSub k issue_lower

/-- `ValidationAgent._parse_validation_response` (validator.py lines
148-188). -/
def parse_validation_response (response : List Char) : ParsedLLM :=
  { factual_consistency := !hasSub (str "contradiction") (pyLower response)
    completeness := !hasSub (str "missing") (pyLower response)
    quality := !has_quality_issues response
    issues := extract_issues response
    improvements := extract_improvements response
    requires_improvements := hasSub (str "improvement") (pyLower response)
    missing_critical_info := [] }

/-- `ValidationAgent._llm_validate` outcome handling (validator.py
lines 96-106): a raised LLM call yields the empty dictionary,
modelled as `none`; a successful call yields the parsed response. -/
def llm_validate (llm_outcome : Except (List Char) (List Char)) : Option ParsedLLM :=
  match llm_outcome with
  | .error _ => none
  | .ok response => some (parse_validation_response response)

/-- The three critical sections checked by `_heuristic_validate`. -/
def criticalSections : List (List Char) :=
  [str "Customer Information", str "Background", str "Solution"]

/-- `ValidationAgent._heuristic_validate` (validator.py lines
108-132): the issue list, built from the missing-critical-section
loop followed by the short-section loop.  `sections` maps section
names to content strings, in dict insertion order. -/
def heuristic_validate (sections : List (List Char × List Char)) : List (List Char) :=
  (criticalSections.filterMap fun critical =>
    if sections.any (fun p => p.1 == critical) then none
    else some (str "Missing critical section: " ++ critical))
  ++ sections.filterMap fun p =>
    if p.2.length < 50 then
      some (str "Section \x27" ++ p.1 ++ str "\x27 is very short (< 50 chars)")
    else none

/-- `ValidationAgent._merge_validation_results` (validator.py lines
220-235); `llm_results` is `none` for the empty dictionary produced by
a failed LLM call, in which case every `.get` falls back to its
default. -/
def merge_validation_results (llm_results : Option ParsedLLM)
    (heuristic_issues : List (List Char)) : ValidationResult :=
  { factual_consistency := (llm_results.map (·.factual_consistency)).getD true
    completeness := (llm_results.map (·.completeness)).getD true
    quality := (llm_results.map (·.quality)).getD true
    issues := (llm_results.map (·.issues)).getD [] ++ heuristic_issues
    improvements := (llm_results.map (·.improvements)).getD []
    requires_improvements :=
      (llm_results.map (·.requires_improvements)).getD false
      || decide (0 < heuristic_issues.length)
    missing_critical_info := (llm_results.map (·.missing_critical_info)).getD [] }

/-- `ValidationAgent.process` (validator.py lines 24-61), with the
LLM review call's outcome as an explicit parameter: parse or default
the LLM review, run the heuristic checks, merge. -/
def validation_process (llm_outcome : Except (List Char) (List Char))
    (sections : List (List Char × List Char)) : ValidationResult :=
  merge_validation_results (llm_validate llm_outcome) (heuristic_validate sections)

/-! ## Orchestrator (agents/orchestrator.py)

Each external call (VTT parser, analyzer, the per-section LLM
generations, the two validations, the Executive Summary generation)
appears as an explicit outcome in a `PipelineEnv`: `.ok` for a normal
return, `.error msg` for a raised exception with `str(e) = msg`.
`process` then mirrors the control flow of
`OrchestrationAgent.process` over these outcomes. -/

/-- Parsed transcript (models/transcript.py), restricted to the text
the downstream stages thread through. -/
structure TranscriptData where
  text : List Char := []
  deriving DecidableEq, Repr

/-- An exception escaping a pipeline stage: either a typed
`MCPServerError` (as raised by `_parse_transcript`) or any other
exception carrying its `str(e)` text. -/
inductive Exc where
  | mcp (e : MCPServerError)
  | other (message : List Char)
  deriving DecidableEq, Repr

/-- Python `str(e)`: for `MCPServerError` this is its message
(`Exception.__init__` receives the message). -/
def excMessage : Exc → List Char
  | .mcp e => e.message
  | .other m => m

/-- Lifts a generic stage outcome into the exception type. -/
def liftExc : Except (List Char) α → Except Exc α
  | .ok a => .ok a
  | .error m => .error (.other m)

/-- Outcomes of all external calls made during one orchestration run,
plus the `parallel_section_generation` configuration flag. -/
structure PipelineEnv where
  parallel_section_generation : Bool
  parse : Except (List Char) TranscriptData
  analyze : Except (List Char) AnalysisResult
  generate : List Char → Except (List Char) SectionResult
  validate1 : Except (List Char) ValidationResult
  exec_summary : Except (List Char) SectionResult
  validate2 : Except (List Char) ValidationResult

/-- The eleven section names, in order (orchestrator.py lines
39-51). -/
def SECTION_NAMES : List (List Char) :=
  [str "Customer Information", str "Background", str "Solution",
   str "Engagement Details", str "Results and Achievements",
   str "Adoption and Usage", str "Financial Impact", str "Long-Term Impact",
   str "Visuals", str "Additional Commentary", str "Executive Summary"]

/-- `OrchestrationAgent._parse_transcript` (orchestrator.py lines
175-208): a parser exception is re-raised as a `PARSE_ERROR`
`MCPServerError` whose message wraps the original error text and whose
details carry the filename. -/
def parse_transcript (outcome : Except (List Char) TranscriptData)
    (filename : List Char) : Except Exc TranscriptData :=
  match outcome with
  | .ok transcript_data => .ok transcript_data
  | .error e =>
    .error (.mcp
      { message := str "Failed to parse VTT content: " ++ e
        error_code := .PARSE_ERROR
        details_filename := some filename
        details_error := none })

/-- `OrchestrationAgent._generate_sections_parallel` (orchestrator.py
lines 279-325): launch one task per non-summary section, gather all
outcomes in task order, then zip names with outcomes, substituting an
error placeholder for each raised call. -/
def generate_sections_parallel (generate : List Char → Except (List Char) SectionResult) :
    List (List Char × SectionResult) :=
  let section_names := SECTION_NAMES.dropLast
  let results := section_names.map generate
  (section_names.zip results).map fun nr =>
    match nr.2 with
    | .error e => (nr.1, SectionResult.error_placeholder nr.1 e)
    | .ok result => (nr.1, result)

/-- `OrchestrationAgent._generate_sections_sequential` (orchestrator.py
lines 327-361): the same ten calls one after another, with the same
per-call placeholder substitution. -/
def generate_sections_sequential (generate : List Char → Except (List Char) SectionResult) :
    List (List Char) → List (List Char × SectionResult)
  | [] => []
  | name :: rest =>
    (match generate name with
     | .ok result => (name, result)
     | .error e => (name, SectionResult.error_placeholder name e))
    :: generate_sections_sequential generate rest

/-- `OrchestrationAgent._improve_sections` (orchestrator.py lines
391-441): a documented no-op that only logs and returns the sections
unchanged. -/
def improve_sections (sections : List (List Char × SectionResult))
    (_validation_results : ValidationResult) : List (List Char × SectionResult) :=
  sections

/-- `OrchestrationAgent._assemble_output` (orchestrator.py lines
500-548): aggregate missing fields then deduplicate (Python
`list(set(...))`, modelled as `List.dedup` since the set order is
unspecified), average the confidences (0 when there are no sections),
and package sections, metadata and the final validation. -/
def assemble_output (sections : List (List Char × SectionResult))
    (analysis_results : AnalysisResult)
    (validation_results : ValidationResult) : SnapshotOutput :=
  let all_missing_fields := (sections.map fun p => p.2.missing_fields).flatten
  let confidences := sections.map fun p => p.2.confidence
  let avg_confidence : ℚ :=
    if confidences.isEmpty then 0 else confidences.sum / confidences.length
  { sections := sections.map fun p =>
      (p.1, { content := p.2.content, confidence := p.2.confidence,
              missing_fields := p.2.missing_fields })
    metadata :=
      { avg_confidence := avg_confidence
        total_sections := sections.length
        entities_extracted := analysis_results.entities
        topics_identified := analysis_results.topics }
    validation := validation_results
    missing_fields := all_missing_fields.dedup }

/-- Stages 1-8 of `OrchestrationAgent.process` inside its `try` block
(orchestrator.py lines 124-162): parse, analyze, fan out the ten
non-summary generations (parallel or sequential by configuration),
validate, conditionally run the no-op improvement, generate the
Executive Summary, re-validate, assemble. -/
def process_body (env : PipelineEnv) (filename : List Char) : Except Exc SnapshotOutput := do
  let _transcript_data ← parse_transcript env.parse filename
  let analysis_results ← liftExc env.analyze
  let sections :=
    if env.parallel_section_generation then generate_sections_parallel env.generate
    else generate_sections_sequential env.generate SECTION_NAMES.dropLast
  let validation_results ← liftExc env.validate1
  let sections :=
    if validation_results.requires_improvements then
      improve_sections sections validation_results
    else sections
  let exec_summary ← liftExc env.exec_summary
  let sections := sections ++ [(str "Executive Summary", exec_summary)]
  let final_validation ← liftExc env.validate2
  pure (assemble_output sections analysis_results final_validation)

/-- `OrchestrationAgent.process` (orchestrator.py lines 100-173):
empty content is rejected with `INVALID_INPUT` before the `try` block;
any exception escaping a stage - including the `PARSE_ERROR`
`MCPServerError` raised by `_parse_transcript` - is caught by the
blanket handler and re-raised as `INTERNAL_ERROR` wrapping `str(e)`
and the filename. -/
def process (env : PipelineEnv) (vtt_content filename : List Char) :
    Except MCPServerError SnapshotOutput :=
  if vtt_content.isEmpty then
    .error
      { message := str "vtt_content is required"
        error_code := .INVALID_INPUT
        details_filename := some filename
        details_error := none }
  else
    match process_body env filename with
    | .ok output => .ok output
    | .error e =>
      .error
        { message := str "Failed to generate snapshot: " ++ excMessage e
          error_code := .INTERNAL_ERROR
          details_filename := some filename
          details_error := some (excMessage e) }

/-! ## Claim-side readings

Definitions following the words of spec claims, for comparison with
the definitions embedded from the source. -/

/-- Claim C5's reading of the Customer Information adjustment: the
+0.1 bonus requires that the 50 characters following the
"company name:" label contain none of the six placeholder phrases;
-0.2 when the label is absent; independently -0.1 when "industry:" is
absent. -/
def ciAdjustmentClaim (content_lower : List Char) : ℚ :=
  (if hasSub (str "company name:") content_lower then
    (if placeholders.all (fun p => !hasSub p
        ((content_lower.drop ((subIdx (str "company name:") content_lower).getD 0
          + (str "company name:").length)).take 50)) then
      (1 : ℚ)/10
    else 0)
  else -(2/10))
  + (if !hasSub (str "industry:") content_lower then -((1 : ℚ)/10) else 0)

/-- The Customer Information adjustment as amended: -0.2 when the
"company name:" label is absent; no adjustment when the text between
the label's first occurrence and its next one, truncated to 50
characters, contains "not mentioned"; +0.1 otherwise; independently
-0.1 when "industry:" is absent. -/
def ciAdjustmentAmended (content_lower : List Char) : ℚ :=
  (if !hasSub (str "company name:") content_lower then -((2 : ℚ)/10)
   else if hasSub (str "not mentioned")
       ((chunkAfterFirst (str "company name:") content_lower).take 50) then 0
   else (1 : ℚ)/10)
  + (if hasSub (str "industry:") content_lower then 0 else -((1 : ℚ)/10))

/-- Claim C6's reading of the missing-field test: a field is missing
exactly when its label is absent, or when the 100 characters following
the label's first occurrence contain a placeholder phrase (the spec's
six placeholder phrases). -/
def fieldMissingClaim (content field_label : List Char) : Bool :=
  !hasSub field_label content
  || placeholders.any fun p =>
      hasSub p (pyLower
        ((content.drop ((subIdx field_label content).getD 0 + field_label.length)).take 100))

/-! ## Concrete inputs for counterexamples and witnesses -/

/-- Customer Information content whose "company name:" value is the
placeholder "not specified": the code still grants the +0.1 bonus
because it only looks for "not mentioned". -/
def c5a : List Char := str "company name: not specified industry: x"

/-- Content with a second "company name:" label inside the 50
characters following the first: the code's window
(`split("company name:")[1][:50]`) stops at the second label and
misses the "not mentioned" that follows it. -/
def c5b : List Char := str "company name: xcompany name: not mentioned ok"

/-- Content whose "location" label is followed by 87 filler characters
and then "not mentioned": the placeholder sits inside the 100
characters following the label but outside the code's 100-character
slice that starts at the label itself. -/
def c6a : List Char := str "location" ++ List.replicate 87 'x' ++ str "not mentioned"

/-- Content whose "location" value is "no information provided", a
placeholder phrase of the spec's six-phrase set that is not in the
code's five-phrase field list. -/
def c6b : List Char := str "location: no information provided here ok"

/-- One placeholder-phrase occurrence, padded to 41 characters. -/
def c10a : List Char := str "not mentioned" ++ List.replicate 28 'x'

/-- Three occurrences of the same placeholder phrase, also 41
characters. -/
def c10b : List Char := str "not mentioned not mentioned not mentioned"

/-- One inferred-marker occurrence, padded to 20 characters. -/
def c10c : List Char := str "[INFERRED]" ++ List.replicate 10 'x'

/-- Two inferred-marker occurrences, also 20 characters. -/
def c10d : List Char := str "[INFERRED][INFERRED]"

/-- A parsed transcript for successful-parse environments. -/
def sampleTranscript : TranscriptData := { text := str "WEBVTT sample transcript" }

/-- An analysis result for successful-analyze environments. -/
def sampleAnalysis : AnalysisResult :=
  { entities := [(str "ORG", [str "Acme Corporation"])]
    topics := [str "automation"] }

/-- A validation verdict with no findings. -/
def sampleValidation : ValidationResult := {}

/-- A successful generation result for the named section. -/
def sampleSection (name : List Char) : SectionResult :=
  { section_name := name
    content := str "Generated content for this section of the snapshot document."
    confidence := 8/10
    missing_fields := []
    metadata := {} }

/-- Environment in which the external VTT parser raises and every
other call succeeds. -/
def envParseFail : PipelineEnv :=
  { parallel_section_generation := true
    parse := .error (str "Invalid VTT format")
    analyze := .ok sampleAnalysis
    generate := fun name => .ok (sampleSection name)
    validate1 := .ok sampleValidation
    exec_summary := .ok (sampleSection (str "Executive Summary"))
    validate2 := .ok sampleValidation }

/-- Environment in which parse, analyze, all ten fan-out generations
and both validations succeed, but the Executive Summary generation
call raises. -/
def envExecFail : PipelineEnv :=
  { envParseFail with
    parse := .ok sampleTranscript
    exec_summary := .error (str "LLM unavailable") }

/-- Environment in which every external call succeeds. -/
def envAllOk : PipelineEnv :=
  { envExecFail with exec_summary := .ok (sampleSection (str "Executive Summary")) }

/-- The error value `process` returns for `envParseFail`. -/
def parseFailError : MCPServerError :=
  { message := str "Failed to generate snapshot: Failed to parse VTT content: Invalid VTT format"
    error_code := .INTERNAL_ERROR
    details_filename := some (str "invalid.vtt")
    details_error := some (str "Failed to parse VTT content: Invalid VTT format") }

/-- Section A of the spec's assembly scenario: confidence 0.8, one
missing field. -/
def secA : SectionResult :=
  { section_name := str "A"
    content := str "Content of section A"
    confidence := 8/10
    missing_fields := [str "location"]
    metadata := {} }

/-- Section B of the spec's assembly scenario: confidence 0.7, no
missing fields. -/
def secB : SectionResult :=
  { section_name := str "B"
    content := str "Content of section B"
    confidence := 7/10
    missing_fields := []
    metadata := {} }

/-- The two-section map of the spec's assembly scenario. -/
def sectionsAB : List (List Char × SectionResult) := [(str "A", secA), (str "B", secB)]

/-- A raw LLM review whose quality block consists of the single line
"No problems found". -/
def reviewNoProblems : List Char :=
  str "QUALITY ISSUES:\nNo problems found\n\nOUTPUT: done"

/-- A parsed LLM review reporting nothing, used to discharge witness
hypotheses. -/
def llmNoFindings : ParsedLLM :=
  { factual_consistency := true
    completeness := true
    quality := true
    issues := []
    improvements := []
    requires_improvements := false
    missing_critical_info := [] }

/-! ## Shared lemmas -/

/-- The placeholder-penalty pass of `_calculate_confidence` subtracts
the penalty once per phrase that is present, however often each phrase
occurs. -/
theorem foldl_penalty (cl : List Char) (c : ℚ) :
    ∀ (ps : List (List Char)) (s : ℚ),
      ps.foldl (fun sc p => if hasSub p cl then sc - c else sc) s
        = s - c * ((ps.filter fun p => hasSub p cl).length : ℚ) := by
  intro ps
  induction ps with
  | nil => intro s; simp
  | cons p rest ih =>
    intro s
    by_cases h : hasSub p cl
    · simp only [List.foldl_cons, List.filter_cons, h, if_pos, ih, List.length_cons]
      push_cast
      ring
    · simp only [List.foldl_cons, List.filter_cons, h, if_neg, ih]
      simp [h]

/-- Closed form of the confidence score: base 1, minus 0.1 per
distinct placeholder phrase present, minus 0.05 per inferred-marker
occurrence, plus the section adjustment, minus the length penalty,
clamped to [0, 1]. -/
theorem calculate_confidence_closed (n c : List Char) :
    calculate_confidence n c
      = max 0 (min 1
          (1 - (1/10) * (((placeholders.filter fun p => hasSub p (pyLower c)).length : ℚ))
            - (5/100) * (occCount inferredTag c : ℚ)
            + sectionAdjustment n (pyLower c) c
            - (if c.length < 100 then 2/10
               else if c.length < 200 then 1/10 else 0))) := by
  simp only [calculate_confidence]
  rw [foldl_penalty]
  rcases Nat.eq_zero_or_pos (occCount inferredTag c) with h0 | hpos
  · rw [h0]
    by_cases h1 : c.length < 100 <;> by_cases h2 : c.length < 200 <;>
      simp [h1, h2]
  · rw [if_pos hpos]
    by_cases h1 : c.length < 100 <;> by_cases h2 : c.length < 200 <;>
      simp [h1, h2]

/-- The section branch selected for "Customer Information". -/
theorem sectionAdjustment_ci (cl c : List Char) :
    sectionAdjustment (str "Customer Information") cl c = ciAdjustment cl := by
  unfold sectionAdjustment
  rw [if_pos (show (str "Customer Information" == str "Customer Information") = true
    from by decide)]

/-- The section branch selected for "Visuals": no adjustment. -/
theorem sectionAdjustment_visuals (cl c : List Char) :
    sectionAdjustment (str "Visuals") cl c = 0 := by
  unfold sectionAdjustment
  rw [if_neg (show ¬(str "Visuals" == str "Customer Information") = true from by decide)]
  rw [if_neg (show ¬(str "Visuals" == str "Background") = true from by decide)]
  rw [if_neg (show ¬(str "Visuals" == str "Solution") = true from by decide)]
  rw [if_neg (show ¬(str "Visuals" == str "Results and Achievements") = true from by decide)]
  rw [if_neg (show ¬(str "Visuals" == str "Financial Impact") = true from by decide)]

/-! ## Claim theorems -/

/-- C4: for every section name and every content string, the
confidence score computed by the Section Generator lies in
[0.0, 1.0] - score adjustments are followed by a final clamp. -/
theorem C4_confidence_in_unit_interval (section_name content : List Char) :
    0 ≤ calculate_confidence section_name content
    ∧ calculate_confidence section_name content ≤ 1 := by
  rw [calculate_confidence_closed]
  exact ⟨le_max_left 0 _, max_le zero_le_one (min_le_left 1 _)⟩

/-- C10: the placeholder penalty depends only on which of the six
phrases are present (0.1 once per distinct phrase present, by the
closed form of the penalty fold), whereas the inferred marker
subtracts 0.05 per occurrence: repeating the same placeholder phrase
(one versus three occurrences, same length) leaves the confidence
unchanged, while repeating the inferred marker (one versus two
occurrences, same length) strictly lowers it. -/
theorem C10_placeholder_presence_inferred_count :
    (∀ (content_lower : List Char) (s : ℚ),
      placeholders.foldl
          (fun sc p => if hasSub p content_lower then sc - 1/10 else sc) s
        = s - (1/10) * ((placeholders.filter fun p => hasSub p content_lower).length : ℚ))
    ∧ calculate_confidence (str "Visuals") c10b = calculate_confidence (str "Visuals") c10a
    ∧ calculate_confidence (str "Visuals") c10d < calculate_confidence (str "Visuals") c10c := by
  refine ⟨fun cl s => foldl_penalty cl (1/10) placeholders s, ?_, ?_⟩
  · rw [calculate_confidence_closed, calculate_confidence_closed,
      sectionAdjustment_visuals, sectionAdjustment_visuals,
      show (placeholders.filter fun p => hasSub p (pyLower c10a)).length = 1 from by decide,
      show (placeholders.filter fun p => hasSub p (pyLower c10b)).length = 1 from by decide,
      show occCount inferredTag c10a = 0 from by decide,
      show occCount inferredTag c10b = 0 from by decide,
      if_pos (show c10a.length < 100 from by decide),
      if_pos (show c10b.length < 100 from by decide)]
  · rw [calculate_confidence_closed, calculate_confidence_closed,
      sectionAdjustment_visuals, sectionAdjustment_visuals,
      show (placeholders.filter fun p => hasSub p (pyLower c10c)).length = 0 from by decide,
      show (placeholders.filter fun p => hasSub p (pyLower c10d)).length = 0 from by decide,
      show occCount inferredTag c10c = 1 from by decide,
      show occCount inferredTag c10d = 2 from by decide,
      if_pos (show c10c.length < 100 from by decide),
      if_pos (show c10d.length < 100 from by decide)]
    norm_num

/-- C5 counterexample: the code's Customer Information bonus checks
only "not mentioned" in a window that stops at the next label
occurrence, not all six placeholder phrases in the 50 characters
following the label.  On `c5a` ("company name: not specified ...") the
code grants +0.1 where the claim grants no bonus; on `c5b` (second
label occurrence hiding a "not mentioned") the code again grants the
bonus where the claim denies it. -/
theorem C5_counterexample :
    ciAdjustment c5a = 1/10 ∧ ciAdjustmentClaim c5a = 0
    ∧ ciAdjustment c5b = 0 ∧ ciAdjustmentClaim c5b = -(1/10)
    ∧ calculate_confidence (str "Customer Information") c5a = 8/10 := by
  refine ⟨?_, ?_, ?_, ?_, ?_⟩
  · rw [ciAdjustment,
      if_pos (show hasSub (str "company name:") c5a = true from by decide),
      if_pos (show (!hasSub (str "not mentioned")
        ((chunkAfterFirst (str "company name:") c5a).take 50)) = true from by decide),
      if_neg (show ¬(!hasSub (str "industry:") c5a) = true from by decide)]
    norm_num
  · rw [ciAdjustmentClaim,
      if_pos (show hasSub (str "company name:") c5a = true from by decide),
      if_neg (show ¬(placeholders.all fun p => !hasSub p
        ((c5a.drop ((subIdx (str "company name:") c5a).getD 0
          + (str "company name:").length)).take 50)) = true from by decide),
      if_neg (show ¬(!hasSub (str "industry:") c5a) = true from by decide)]
    norm_num
  · rw [ciAdjustment,
      if_pos (show hasSub (str "company name:") c5b = true from by decide),
      if_pos (show (!hasSub (str "not mentioned")
        ((chunkAfterFirst (str "company name:") c5b).take 50)) = true from by decide),
      if_pos (show (!hasSub (str "industry:") c5b) = true from by decide)]
    norm_num
  · rw [ciAdjustmentClaim,
      if_pos (show hasSub (str "company name:") c5b = true from by decide),
      if_neg (show ¬(placeholders.all fun p => !hasSub p
        ((c5b.drop ((subIdx (str "company name:") c5b).getD 0
          + (str "company name:").length)).take 50)) = true from by decide),
      if_pos (show (!hasSub (str "industry:") c5b) = true from by decide)]
    norm_num
  · rw [calculate_confidence_closed, sectionAdjustment_ci,
      show (placeholders.filter fun p => hasSub p (pyLower c5a)).length = 1 from by decide,
      show occCount inferredTag c5a = 0 from by decide,
      show pyLower c5a = c5a from by decide,
      if_pos (show c5a.length < 100 from by decide),
      show ciAdjustment c5a = 1/10 from ?_]
    · norm_num
    · rw [ciAdjustment,
        if_pos (show hasSub (str "company name:") c5a = true from by decide),
        if_pos (show (!hasSub (str "not mentioned")
          ((chunkAfterFirst (str "company name:") c5a).take 50)) = true from by decide),
        if_neg (show ¬(!hasSub (str "industry:") c5a) = true from by decide)]
      norm_num

/-- C5 as amended: the Customer Information adjustment grants +0.1
when the "company name:" label is present and the text between its
first occurrence and the next one, truncated to 50 characters, does
not contain "not mentioned" (only this one phrase is checked); -0.2
when the label is absent; and, independently, -0.1 when "industry:"
is absent. -/
theorem C5_ci_adjustment_amended (content_lower content : List Char) :
    sectionAdjustment (str "Customer Information") content_lower content
      = ciAdjustmentAmended content_lower := by
  rw [sectionAdjustment_ci]
  unfold ciAdjustment ciAdjustmentAmended
  by_cases h1 : hasSub (str "company name:") content_lower <;>
    by_cases h2 : hasSub (str "not mentioned")
      ((chunkAfterFirst (str "company name:") content_lower).take 50) <;>
    by_cases h3 : hasSub (str "industry:") content_lower <;>
    simp [h1, h2, h3]

/-- C6 counterexample: the code's window is the 100-character slice
starting at the label itself (so a placeholder in the 100 characters
following the label, but beyond `100 - label length`, is missed: `c6a`)
and its phrase list omits "no information provided" (so that phrase as
a field value is not detected: `c6b`); in both cases the claim reports
the field missing while the code does not, and "location" is absent
from the reported missing-field list. -/
theorem C6_counterexample :
    is_field_missing c6a (str "location") = false
    ∧ fieldMissingClaim c6a (str "location") = true
    ∧ (identify_missing_fields (str "Customer Information") c6a).contains
        (str "location") = false
    ∧ is_field_missing c6b (str "location") = false
    ∧ fieldMissingClaim c6b (str "location") = true := by
  refine ⟨by decide, by decide, by decide, by decide, by decide⟩

/-- C6 as amended: a field is reported missing exactly when its label
is absent from the content, or when the 100-character slice of the
content starting at the label's first occurrence contains one of the
five field placeholders ("not mentioned", "not specified",
"not available", "not stated", "unclear"); and a field (shown for
"location" in Customer Information) appears in the reported
missing-field list exactly when that test holds on the lowercased
content. -/
theorem C6_field_missing_amended (content field_label : List Char) :
    (is_field_missing content field_label = true
      ↔ (hasSub field_label content = false
         ∨ ∃ p ∈ fieldPlaceholders,
             hasSub p (pyLower
               ((content.drop ((subIdx field_label content).getD 0)).take 100)) = true))
    ∧ (str "location" ∈ identify_missing_fields (str "Customer Information") content
        ↔ is_field_missing (pyLower content) (str "location") = true) := by
  constructor
  · unfold is_field_missing
    by_cases h : hasSub field_label content
    · simp [h, List.any_eq_true]
    · simp [h]
  · unfold identify_missing_fields
    rw [if_pos (show (str "Customer Information" == str "Customer Information") = true
      from by decide)]
    by_cases h1 : is_field_missing (pyLower content) (str "company name") <;>
      by_cases h2 : is_field_missing (pyLower content) (str "industry") <;>
      by_cases h3 : is_field_missing (pyLower content) (str "location") <;>
      by_cases h4 : is_field_missing (pyLower content) (str "primary contact") <;>
      simp [h1, h2, h3, h4,
        show str "location" ≠ str "company_name" from by decide,
        show str "location" ≠ str "industry" from by decide,
        show str "location" ≠ str "primary_contact" from by decide]

/-- C3: merging an LLM review with heuristic results propagates the
three boolean verdicts and the improvement list from the LLM pass
unchanged, concatenates LLM issues before heuristic issues, and sets
requires-improvements to the disjunction of the LLM flag with the
presence of heuristic issues - in particular any heuristic issue
forces it to true. -/
theorem C3_merge_rule (llm : ParsedLLM) (heuristic_issues : List (List Char)) :
    (merge_validation_results (some llm) heuristic_issues).requires_improvements
        = (llm.requires_improvements || !heuristic_issues.isEmpty)
    ∧ (heuristic_issues ≠ [] →
        (merge_validation_results (some llm) heuristic_issues).requires_improvements = true)
    ∧ (merge_validation_results (some llm) heuristic_issues).issues
        = llm.issues ++ heuristic_issues
    ∧ (merge_validation_results (some llm) heuristic_issues).improvements
        = llm.improvements
    ∧ (merge_validation_results (some llm) heuristic_issues).factual_consistency
        = llm.factual_consistency
    ∧ (merge_validation_results (some llm) heuristic_issues).completeness
        = llm.completeness
    ∧ (merge_validation_results (some llm) heuristic_issues).quality = llm.quality := by
  refine ⟨?_, ?_, rfl, rfl, rfl, rfl, rfl⟩
  · cases heuristic_issues <;> simp [merge_validation_results]
  · intro h
    cases heuristic_issues with
    | nil => exact absurd rfl h
    | cons a t => simp [merge_validation_results]

/-- Witness for C3 at a concrete merge with one heuristic issue. -/
theorem C3_merge_rule_witness :
    ([str "Section is very short"] : List (List Char)) ≠ []
    ∧ (merge_validation_results (some llmNoFindings)
        [str "Section is very short"]).requires_improvements = true :=
  ⟨by simp, (C3_merge_rule llmNoFindings [str "Section is very short"]).2.1 (by simp)⟩

/-- C7: when the LLM review call raises, validation still succeeds
with the no-problems default: all three verdicts true, issues exactly
the heuristic issues, no improvements, and requires-improvements true
only when heuristic issues exist. -/
theorem C7_llm_failure_defaults (e : List Char)
    (sections : List (List Char × List Char)) :
    (validation_process (.error e) sections).factual_consistency = true
    ∧ (validation_process (.error e) sections).completeness = true
    ∧ (validation_process (.error e) sections).quality = true
    ∧ (validation_process (.error e) sections).issues = heuristic_validate sections
    ∧ (validation_process (.error e) sections).improvements = []
    ∧ (validation_process (.error e) sections).requires_improvements
        = !(heuristic_validate sections).isEmpty := by
  refine ⟨rfl, rfl, rfl, rfl, rfl, ?_⟩
  cases h : heuristic_validate sections <;>
    simp [validation_process, llm_validate, merge_validation_results, h]

/-- C8: the parsed verdicts of a raw LLM review: factual consistency
is false exactly when the lowercased text contains "contradiction";
completeness is false exactly when it contains "missing"; quality is
false exactly when some extracted quality line is not a negation and
contains a problem keyword; and a quality block consisting of
"No problems found" yields quality true. -/
theorem C8_parse_review (response : List Char) :
    ((parse_validation_response response).factual_consistency = false
      ↔ hasSub (str "contradiction") (pyLower response) = true)
    ∧ ((parse_validation_response response).completeness = false
      ↔ hasSub (str "missing") (pyLower response) = true)
    ∧ ((parse_validation_response response).quality = false
      ↔ ∃ issue ∈ extract_quality_issues response,
          negationLine (pyLower issue) = false
          ∧ ∃ k ∈ problemKeywords, hasSub k (pyLower issue) = true)
    ∧ (parse_validation_response reviewNoProblems).quality = true := by
  refine ⟨?_, ?_, ?_, by decide⟩
  · simp [parse_validation_response]
  · simp [parse_validation_response]
  · simp [parse_validation_response, has_quality_issues, List.any_eq_true]

/-- C9: the assembled output's missing-field list is set-equal to the
union of the sections' missing-field lists and duplicate-free, the
average confidence is the arithmetic mean (0 for an empty section
set), and on the spec's two-section scenario the averages, counts and
missing fields come out as 0.75, 2 and ["location"]. -/
theorem C9_assemble_output (sections : List (List Char × SectionResult))
    (analysis_results : AnalysisResult) (validation_results : ValidationResult) :
    (∀ f, f ∈ (assemble_output sections analysis_results validation_results).missing_fields
        ↔ ∃ p ∈ sections, f ∈ p.2.missing_fields)
    ∧ (assemble_output sections analysis_results validation_results).missing_fields.Nodup
    ∧ (assemble_output sections analysis_results validation_results).metadata.total_sections
        = sections.length
    ∧ (assemble_output sections analysis_results validation_results).metadata.avg_confidence
        = (if sections.isEmpty then 0
           else (sections.map fun p => p.2.confidence).sum / (sections.length : ℚ))
    ∧ (assemble_output sectionsAB sampleAnalysis sampleValidation).metadata.avg_confidence
        = 3/4
    ∧ (assemble_output sectionsAB sampleAnalysis sampleValidation).metadata.total_sections
        = 2
    ∧ (assemble_output sectionsAB sampleAnalysis sampleValidation).missing_fields
        = [str "location"] := by
  refine ⟨?_, ?_, rfl, ?_, ?_, rfl, ?_⟩
  · intro f
    simp only [assemble_output, List.mem_dedup, List.mem_flatten, List.mem_map]
    constructor
    · rintro ⟨l, ⟨p, hp, rfl⟩, hf⟩
      exact ⟨p, hp, hf⟩
    · rintro ⟨p, hp, hf⟩
      exact ⟨p.2.missing_fields, ⟨p, hp, rfl⟩, hf⟩
  · exact List.nodup_dedup _
  · cases sections <;> simp [assemble_output]
  · simp [assemble_output, sectionsAB, secA, secB]
    norm_num
  · simp [assemble_output, sectionsAB, secA, secB]

/-! ## Lemmas on the fan-out stage -/

/-- The sequential fan-out produces one entry per requested section
name, in order. -/
theorem seq_map_fst (g : List Char → Except (List Char) SectionResult) :
    ∀ names, (generate_sections_sequential g names).map Prod.fst = names := by
  intro names
  induction names with
  | nil => rfl
  | cons n ns ih => cases hg : g n <;> simp [generate_sections_sequential, hg, ih]

/-- The zip-and-substitute loop of the parallel fan-out agrees with
the sequential recursion on any name list. -/
theorem zip_substitute_eq_seq (g : List Char → Except (List Char) SectionResult) :
    ∀ names : List (List Char),
      ((names.zip (names.map g)).map fun nr =>
        match nr.2 with
        | .error e => (nr.1, SectionResult.error_placeholder nr.1 e)
        | .ok result => (nr.1, result))
      = generate_sections_sequential g names := by
  intro names
  induction names with
  | nil => rfl
  | cons n ns ih =>
    cases hg : g n <;> simp [generate_sections_sequential, hg, ← ih]

/-- Parallel and sequential fan-out agree on every outcome
assignment. -/
theorem par_eq_seq (g : List Char → Except (List Char) SectionResult) :
    generate_sections_parallel g
      = generate_sections_sequential g SECTION_NAMES.dropLast := by
  simp only [generate_sections_parallel]
  exact zip_substitute_eq_seq g SECTION_NAMES.dropLast

/-- Looking a requested name up in the fan-out result (under any
further entries) returns the call's own result, or the error
placeholder when the call raised. -/
theorem seq_lookup_append (g : List Char → Except (List Char) SectionResult) :
    ∀ (names : List (List Char)) (rest : List (List Char × SectionResult))
      (name : List Char), name ∈ names →
      (generate_sections_sequential g names ++ rest).lookup name
        = some (match g name with
            | .ok r => r
            | .error err => SectionResult.error_placeholder name err) := by
  intro names
  induction names with
  | nil => intro rest name h; cases h
  | cons n ns ih =>
    intro rest name h
    by_cases hn : n = name
    · subst hn
      cases hg : g n <;> simp [generate_sections_sequential, List.lookup, hg]
    · have hmem : name ∈ ns := by
        rcases List.mem_cons.mp h with h' | h'
        · exact absurd h'.symm hn
        · exact h'
      cases hg : g n <;>
        simp [generate_sections_sequential, List.lookup, hg,
          show (name == n) = false from beq_eq_false_iff_ne.mpr fun hh => hn hh.symm,
          ih rest name hmem]

/-- Lookup falls through an association-list prefix containing no
entry for the key. -/
theorem lookup_append_right (k : List Char) :
    ∀ (l₁ l₂ : List (List Char × SectionResult)),
      (∀ p ∈ l₁, (k == p.1) = false) →
      (l₁ ++ l₂).lookup k = l₂.lookup k := by
  intro l₁
  induction l₁ with
  | nil => intro l₂ _; rfl
  | cons p t ih =>
    intro l₂ h
    have hp : (k == p.1) = false := h p (List.mem_cons_self p t)
    simp [List.lookup, hp, ih l₂ fun q hq => h q (List.mem_cons_of_mem p hq)]

/-- Lookup commutes with the per-entry projection from `SectionResult`
to `SectionContent` used by `_assemble_output`. -/
theorem lookup_map_content :
    ∀ (l : List (List Char × SectionResult)) (k : List Char),
      (l.map fun p => (p.1,
        ({ content := p.2.content, confidence := p.2.confidence,
           missing_fields := p.2.missing_fields } : SectionContent))).lookup k
        = (l.lookup k).map fun s =>
            ({ content := s.content, confidence := s.confidence,
               missing_fields := s.missing_fields } : SectionContent) := by
  intro l
  induction l with
  | nil => intro k; rfl
  | cons p t ih =>
    intro k
    by_cases h : (k == p.1) = true <;> simp [List.lookup, h, ih]

/-- Evaluation of the pipeline when every stage outcome other than the
ten fan-out generations is a success: the run completes and assembles
the fan-out results (both configurations reduced to the sequential
form) followed by the Executive Summary. -/
theorem process_ok (env : PipelineEnv) (vtt_content filename : List Char)
    (td : TranscriptData) (ar : AnalysisResult) (v1 : ValidationResult)
    (es : SectionResult) (v2 : ValidationResult)
    (hvtt : vtt_content.isEmpty = false)
    (hparse : env.parse = .ok td)
    (hanalyze : env.analyze = .ok ar)
    (hv1 : env.validate1 = .ok v1)
    (hes : env.exec_summary = .ok es)
    (hv2 : env.validate2 = .ok v2) :
    process env vtt_content filename
      = .ok (assemble_output
          (generate_sections_sequential env.generate SECTION_NAMES.dropLast
            ++ [(str "Executive Summary", es)]) ar v2) := by
  have hbody : process_body env filename
      = .ok (assemble_output
          (generate_sections_sequential env.generate SECTION_NAMES.dropLast
            ++ [(str "Executive Summary", es)]) ar v2) := by
    unfold process_body
    rw [hparse, hanalyze, hv1, hes, hv2]
    simp [parse_transcript, liftExc, improve_sections, par_eq_seq, Bind.bind, Except.bind,
      Pure.pure, Except.pure]
  unfold process
  rw [hvtt, hbody]
  simp

/-- C1 counterexample: in an environment where the external parser
raises, the generate operation does not fail with PARSE_ERROR: the
blanket handler of `process` catches the PARSE_ERROR raised by the
parse stage and re-raises INTERNAL_ERROR. -/
theorem C1_counterexample :
    process envParseFail (str "WEBVTT") (str "invalid.vtt") = .error parseFailError
    ∧ parseFailError.error_code = ErrorCode.INTERNAL_ERROR
    ∧ parseFailError.error_code ≠ ErrorCode.PARSE_ERROR := by
  refine ⟨?_, rfl, by decide⟩
  rfl

/-- C1 as amended: when the external parser rejects the content, the
internal parse stage raises PARSE_ERROR carrying the wrapped error
text and the filename, but the generate operation's blanket handler
re-wraps it, so the operation fails with INTERNAL_ERROR whose message
and details carry the original error text and filename. -/
theorem C1_parse_failure_amended (env : PipelineEnv) (e vtt_content filename : List Char)
    (hparse : env.parse = .error e) (hvtt : vtt_content.isEmpty = false) :
    process env vtt_content filename
      = .error
          { message := str "Failed to generate snapshot: "
              ++ (str "Failed to parse VTT content: " ++ e)
            error_code := .INTERNAL_ERROR
            details_filename := some filename
            details_error := some (str "Failed to parse VTT content: " ++ e) }
    ∧ parse_transcript env.parse filename
      = .error (.mcp
          { message := str "Failed to parse VTT content: " ++ e
            error_code := .PARSE_ERROR
            details_filename := some filename
            details_error := none }) := by
  have hpt : parse_transcript env.parse filename
      = .error (.mcp
          { message := str "Failed to parse VTT content: " ++ e
            error_code := .PARSE_ERROR
            details_filename := some filename
            details_error := none }) := by
    rw [hparse]; rfl
  refine ⟨?_, hpt⟩
  have hbody : process_body env filename
      = .error (.mcp
          { message := str "Failed to parse VTT content: " ++ e
            error_code := .PARSE_ERROR
            details_filename := some filename
            details_error := none }) := by
    unfold process_body
    rw [hpt]
    simp [Bind.bind, Except.bind]
  unfold process
  rw [hvtt, hbody]
  simp [excMessage]

/-- Witness for C1 at the concrete failing environment. -/
theorem C1_parse_failure_amended_witness :
    envParseFail.parse = .error (str "Invalid VTT format")
    ∧ (str "WEBVTT").isEmpty = false
    ∧ process envParseFail (str "WEBVTT") (str "sample.vtt")
      = .error
          { message := str "Failed to generate snapshot: "
              ++ (str "Failed to parse VTT content: " ++ str "Invalid VTT format")
            error_code := .INTERNAL_ERROR
            details_filename := some (str "sample.vtt")
            details_error := some (str "Failed to parse VTT content: "
              ++ str "Invalid VTT format") } :=
  ⟨rfl, rfl,
    (C1_parse_failure_amended envParseFail (str "Invalid VTT format") (str "WEBVTT")
      (str "sample.vtt") rfl rfl).1⟩

/-- C2 counterexample: a run in which parse, analyze, both validations
and all ten fan-out generations succeed, but the Executive Summary
generation call raises: the pipeline does not complete with eleven
sections - it fails with INTERNAL_ERROR. -/
theorem C2_counterexample :
    process envExecFail (str "WEBVTT") (str "sample.vtt")
      = .error
          { message := str "Failed to generate snapshot: " ++ str "LLM unavailable"
            error_code := .INTERNAL_ERROR
            details_filename := some (str "sample.vtt")
            details_error := some (str "LLM unavailable") }
    ∧ envExecFail.parse = .ok sampleTranscript
    ∧ envExecFail.analyze = .ok sampleAnalysis
    ∧ envExecFail.validate1 = .ok sampleValidation
    ∧ envExecFail.validate2 = .ok sampleValidation
    ∧ envExecFail.exec_summary = .error (str "LLM unavailable") := by
  refine ⟨?_, rfl, rfl, rfl, rfl, rfl⟩
  rfl

/-- C2 as amended: in every run in which parse, analyze, the two
validations and the Executive Summary generation succeed - whatever
the ten fan-out outcomes and in both the parallel and the sequential
configuration - the pipeline completes with exactly eleven sections
in the fixed order, including "Executive Summary"; each of the ten
generation calls that raised is replaced by the error-placeholder
(content "[Section generation failed: <error>]", confidence 0, no
missing fields) and each call that succeeded keeps its own result. -/
theorem C2_eleven_sections_amended (env : PipelineEnv) (vtt_content filename : List Char)
    (td : TranscriptData) (ar : AnalysisResult) (v1 : ValidationResult)
    (es : SectionResult) (v2 : ValidationResult)
    (hvtt : vtt_content.isEmpty = false)
    (hparse : env.parse = .ok td)
    (hanalyze : env.analyze = .ok ar)
    (hv1 : env.validate1 = .ok v1)
    (hes : env.exec_summary = .ok es)
    (hv2 : env.validate2 = .ok v2) :
    (∀ g, generate_sections_parallel g
        = generate_sections_sequential g SECTION_NAMES.dropLast)
    ∧ (∀ name err,
        (SectionResult.error_placeholder name err).content
            = str "[Section generation failed: " ++ err ++ str "]"
        ∧ (SectionResult.error_placeholder name err).confidence = 0
        ∧ (SectionResult.error_placeholder name err).missing_fields = [])
    ∧ ∃ out, process env vtt_content filename = .ok out
        ∧ out.sections.map Prod.fst = SECTION_NAMES
        ∧ out.sections.length = 11
        ∧ str "Executive Summary" ∈ out.sections.map Prod.fst
        ∧ (∀ name ∈ SECTION_NAMES.dropLast,
            out.sections.lookup name = some (
              match env.generate name with
              | .ok r =>
                { content := r.content, confidence := r.confidence,
                  missing_fields := r.missing_fields }
              | .error err =>
                { content := str "[Section generation failed: " ++ err ++ str "]",
                  confidence := 0, missing_fields := [] }))
        ∧ out.sections.lookup (str "Executive Summary")
            = some { content := es.content, confidence := es.confidence,
                     missing_fields := es.missing_fields } := by
  refine ⟨par_eq_seq, fun name err => ⟨rfl, rfl, rfl⟩, ?_⟩
  have hsections :
      (assemble_output
        (generate_sections_sequential env.generate SECTION_NAMES.dropLast
          ++ [(str "Executive Summary", es)]) ar v2).sections
      = (generate_sections_sequential env.generate SECTION_NAMES.dropLast
          ++ [(str "Executive Summary", es)]).map fun p =>
          (p.1, { content := p.2.content, confidence := p.2.confidence,
                  missing_fields := p.2.missing_fields }) := rfl
  have hkeys :
      (assemble_output
        (generate_sections_sequential env.generate SECTION_NAMES.dropLast
          ++ [(str "Executive Summary", es)]) ar v2).sections.map Prod.fst
      = SECTION_NAMES := by
    rw [hsections, List.map_map, List.map_append]
    have hcomp : (Prod.fst ∘ fun p : List Char × SectionResult =>
        (p.1, ({ content := p.2.content, confidence := p.2.confidence,
                 missing_fields := p.2.missing_fields } : SectionContent)))
        = Prod.fst := rfl
    rw [hcomp, seq_map_fst]
    simp only [List.map_cons, List.map_nil]
    decide
  refine ⟨_, process_ok env vtt_content filename td ar v1 es v2
    hvtt hparse hanalyze hv1 hes hv2, hkeys, ?_, ?_, ?_, ?_⟩
  · have := congrArg List.length hkeys
    simpa using this
  · rw [hkeys]
    decide
  · intro name hmem
    rw [hsections, lookup_map_content,
      seq_lookup_append env.generate SECTION_NAMES.dropLast _ name hmem]
    cases hg : env.generate name <;> simp [hg, SectionResult.error_placeholder]
  · rw [hsections, lookup_map_content, lookup_append_right]
    · simp [List.lookup]
    · intro p hp
      have hfst : p.1 ∈ SECTION_NAMES.dropLast := by
        rw [← seq_map_fst env.generate SECTION_NAMES.dropLast]
        exact List.mem_map_of_mem Prod.fst hp
      have hne : str "Executive Summary" ≠ p.1 := by
        intro hcontra
        rw [← hcontra] at hfst
        exact absurd hfst (by decide)
      exact beq_eq_false_iff_ne.mpr hne

/-- Witness for C2 at the all-successful concrete environment. -/
theorem C2_eleven_sections_amended_witness :
    (str "WEBVTT").isEmpty = false
    ∧ envAllOk.parse = .ok sampleTranscript
    ∧ envAllOk.exec_summary = .ok (sampleSection (str "Executive Summary"))
    ∧ (process envAllOk (str "WEBVTT") (str "sample.vtt")).isOk = true := by
  refine ⟨rfl, rfl, rfl, ?_⟩
  obtain ⟨-, -, out, hout, -⟩ :=
    C2_eleven_sections_amended envAllOk (str "WEBVTT") (str "sample.vtt")
      sampleTranscript sampleAnalysis sampleValidation
      (sampleSection (str "Executive Summary")) sampleValidation
      rfl rfl rfl rfl rfl rfl
  rw [hout]
  rfl

end McpSnapshot
